import Mathlib

/-!
Verification development for the proxy-server download / library core.

The definitions below are a shallow embedding of the Python sources:
  * `src/proxy/enums.py`               — the two status enumerations;
  * `src/proxy/downloader.py`          — `DownloadProgress`, the per-image
    callbacks, `DownloadPool.add` / `cancel` / `is_downloading`,
    `_download_image` and `_sync_save_cbz`;
  * `src/proxy/utils/manga.py`         — `_GalleryScanner.contains` /
    `fuzzy_contains`, `_check_file_status`, `check_file_status_gallery`,
    `GalleryCbzFile._extract_pages` and friends.

Filesystem state is modelled as explicit sets of existing file and directory
paths (a path is its list of components); asynchronous code is modelled as
pure state passing, one interleaving step at a time, which is faithful here
because every mutation of the embedded state happens under the corresponding
lock in the source.  The string-similarity scoring of `fuzzy_contains` is the
algorithm of CPython `difflib.SequenceMatcher` (which the source calls with
the junk predicate `lambda x: x in ("-", "_")`), embedded over exact rational
arithmetic.
-/

namespace ProxyProof

/-- `DownloadStatus` from `src/proxy/enums.py`. -/
inductive DownloadStatus
  | PENDING
  | DOWNLOADING
  | COMPLETED
  | CANCELLED
  | FAILED
  | MISSING
deriving DecidableEq

/-- `FileStatus` from `src/proxy/enums.py` (the source spells `MAYBE_AVALIABLE`). -/
inductive FileStatus
  | CONVERTED
  | COMPLETED
  | MISSING
  | NOT_FOUND
  | IN_DIFF_LANG
  | AVAILABLE
  | MAYBE_AVALIABLE
  | PLACEHOLDER
deriving DecidableEq

/-- Terminal download states (`PENDING → DOWNLOADING → {COMPLETED, MISSING,
CANCELLED}`); `FAILED` is declared in the enum but assigned nowhere, it is kept
terminal here for completeness. -/
def isTerminal : DownloadStatus → Bool
  | DownloadStatus.COMPLETED => true
  | DownloadStatus.MISSING => true
  | DownloadStatus.CANCELLED => true
  | DownloadStatus.FAILED => true
  | _ => false

/-- The `DownloadProgress` dataclass (`src/proxy/downloader.py`, 32-49). -/
structure DownloadProgress where
  galleryId : Nat
  totalImages : Nat
  galleryTitle : String
  downloadedImages : Nat
  failedImages : Nat
  status : DownloadStatus
deriving DecidableEq

/-- `DownloadPool._on_download_image_error` (`downloader.py` 148-162): under the
per-gallery progress lock the failed counter is incremented and the error is
logged; no status check is performed on this path. -/
def onDownloadImageError (p : DownloadProgress) : DownloadProgress :=
  { p with failedImages := p.failedImages + 1 }

/-- `DownloadPool._on_download_image_complete` (`downloader.py` 164-183): under
the per-gallery progress lock the downloaded counter is incremented, and when
`downloaded + failed >= total` the status is set to `COMPLETED` when
`failed == 0`, else to `MISSING`. -/
def onDownloadImageComplete (p : DownloadProgress) : DownloadProgress :=
  let q := { p with downloadedImages := p.downloadedImages + 1 }
  if q.totalImages ≤ q.downloadedImages + q.failedImages then
    if q.failedImages = 0 then { q with status := DownloadStatus.COMPLETED }
    else { q with status := DownloadStatus.MISSING }
  else q

/-- One per-image outcome event: the fetch of one page ends in exactly one call
of `_on_download_image_complete` (success) or `_on_download_image_error`
(failure); see `downloadImage` below. -/
inductive ImgEvent
  | success
  | failure
deriving DecidableEq

/-- Apply one per-image callback to the shared progress record.  The callbacks
run under the per-gallery lock, so a concurrent download linearizes into a
sequence of these steps. -/
def stepEvent (p : DownloadProgress) (e : ImgEvent) : DownloadProgress :=
  match e with
  | ImgEvent.success => onDownloadImageComplete p
  | ImgEvent.failure => onDownloadImageError p

/-- Run a linearized sequence of per-image callbacks. -/
def runEvents (p : DownloadProgress) (evs : List ImgEvent) : DownloadProgress :=
  evs.foldl stepEvent p

/-- The progress record right after `_download` set `status = DOWNLOADING`
(`downloader.py` 105-106): counters zero, `total_images` as at submission. -/
def startProgress (gid n : Nat) (title : String) : DownloadProgress :=
  { galleryId := gid, totalImages := n, galleryTitle := title,
    downloadedImages := 0, failedImages := 0, status := DownloadStatus.DOWNLOADING }

/-- Number of steps of a callback sequence at which the status moves from a
non-terminal to a terminal value. -/
def terminalAssignCount (p : DownloadProgress) (evs : List ImgEvent) : Nat :=
  (List.range evs.length).countP (fun k =>
    !isTerminal (runEvents p (evs.take k)).status
      && isTerminal (runEvents p (evs.take (k + 1))).status)

/-! ### Per-image fetch (`DownloadPool._download_image`, `downloader.py` 184-223) -/

/-- Result of one `GET` attempt against one mirror: a response with a status
code and body bytes, or a transport error (any exception raised by the attempt,
which the source catches with `except Exception: continue`). -/
inductive AttemptResult
  | response (statusCode : Nat) (body : List Nat)
  | transportError
deriving DecidableEq

/-- Observable outcome of `_download_image` for one page: the mirror indices a
network request was sent to (in order), the file written (mirror index and
body), and the single progress callback issued. -/
structure FetchOutcome where
  tried : List Nat
  written : Option (Nat × List Nat)
  event : ImgEvent
deriving DecidableEq

/-- `range(1, 10)`: the mirror indices tried, in ascending order. -/
def mirrorIndices : List Nat := List.range' 1 9

/-- The `response.status_code == 200` test. -/
def isOk200 : AttemptResult → Bool
  | AttemptResult.response code _ => code == 200
  | AttemptResult.transportError => false

def bodyOf : AttemptResult → List Nat
  | AttemptResult.response _ body => body
  | AttemptResult.transportError => []

/-- The `for idx_server in range(1, 10)` loop: each attempt either returns the
first `200` response (streaming its body to the destination) or moves on —
a non-200 status code and a raised transport error both just continue with the
next mirror. -/
def tryMirrors (resp : Nat → AttemptResult) : List Nat → List Nat × Option (Nat × List Nat)
  | [] => ([], none)
  | k :: rest =>
    if isOk200 (resp k) then ([k], some (k, bodyOf (resp k)))
    else
      let r := tryMirrors resp rest
      (k :: r.1, r.2)

/-- `DownloadPool._download_image` (`downloader.py` 184-223).  If the
destination file already exists the page is recorded as downloaded at once and
no request is made.  Otherwise the mirrors are tried in ascending order; if
every attempt fails, `_on_download_image_error` records exactly one failed
image.  The function is total: no per-image failure escapes it. -/
def downloadImage (destExists : Bool) (resp : Nat → AttemptResult) : FetchOutcome :=
  if destExists then { tried := [], written := none, event := ImgEvent.success }
  else
    let r := tryMirrors resp mirrorIndices
    match r.2 with
    | some kw => { tried := r.1, written := some kw, event := ImgEvent.success }
    | none => { tried := r.1, written := none, event := ImgEvent.failure }

/-- First mirror index answering `200`, if any. -/
def firstOkMirror (resp : Nat → AttemptResult) : Option Nat :=
  mirrorIndices.find? (fun k => isOk200 (resp k))

/-! ### The download pool tracking state (`DownloadPool`, `downloader.py` 72-413) -/

/-- Submission input: the fields of the `NhentaiGallery` payload that
`DownloadPool.add` reads (`info["id"]`, `info["title"]["main_title"]`,
`info["language"]`, `info["images"]["pages"]` as a list of page type codes). -/
structure GalleryInfo where
  id : Nat
  mainTitle : String
  language : String
  pages : List String
deriving DecidableEq

/-- The two tracking maps of the pool, guarded by `self._lock`: insertion-
ordered association list `id → progress` and the list of ids with a spawned
task (`id → task`). -/
structure PoolState where
  progress : List (Nat × DownloadProgress)
  tasks : List Nat
deriving DecidableEq

/-- `DownloadPool.is_downloading` (`downloader.py` 401-413): tracked and in
state `PENDING` or `DOWNLOADING`. -/
def isDownloading (s : PoolState) (galleryId : Nat) : Bool :=
  match s.progress.lookup galleryId with
  | none => false
  | some p => p.status == DownloadStatus.PENDING || p.status == DownloadStatus.DOWNLOADING

/-- The fresh record built by `DownloadPool.add` (`downloader.py` 337-343). -/
def pendingProgress (g : GalleryInfo) : DownloadProgress :=
  { galleryId := g.id, totalImages := g.pages.length, galleryTitle := g.mainTitle,
    downloadedImages := 0, failedImages := 0, status := DownloadStatus.PENDING }

/-- `DownloadPool.add` (`downloader.py` 311-346) as a transition on the
tracking state.  `fileStatus` is the value of
`check_file_status_gallery(gallery_info=info)`, which the source computes from
the filesystem first: `CONVERTED` logs and returns, `COMPLETED` triggers
packaging (`save_cbz`, which touches no tracking state) and returns, an id
already tracked as `PENDING`/`DOWNLOADING` returns, and otherwise a `PENDING`
progress record and the spawned task are registered under the pool lock
(`_update_progress_and_task`). -/
def addSubmit (s : PoolState) (fileStatus : FileStatus) (g : GalleryInfo) : PoolState :=
  if fileStatus == FileStatus.CONVERTED then s
  else if fileStatus == FileStatus.COMPLETED then s
  else if isDownloading s g.id then s
  else
    { progress := s.progress ++ [(g.id, pendingProgress g)],
      tasks := s.tasks ++ [g.id] }

/-- `DownloadPool.cancel` (`downloader.py` 359-376): untracked ids return
`False`; a tracked record is cancelled (status set to `CANCELLED`, the task
cancellation requested) exactly when its current status is `DOWNLOADING`,
returning `True`; any other status returns `False` with no state change. -/
def poolCancel (s : PoolState) (galleryId : Nat) : Bool × PoolState :=
  match s.progress.lookup galleryId with
  | none => (false, s)
  | some p =>
    if p.status == DownloadStatus.DOWNLOADING then
      (true,
        { s with progress := s.progress.map (fun e =>
            if e.1 == galleryId then (e.1, { e.2 with status := DownloadStatus.CANCELLED })
            else e) })
    else (false, s)

/-- Status of a tracked gallery, if any. -/
def statusOf (s : PoolState) (galleryId : Nat) : Option DownloadStatus :=
  (s.progress.lookup galleryId).map (fun p => p.status)

/-! ### Filesystem model

A path is its list of components below the library root.  `Path.exists()` in
the source is true for files and directories alike; `Path.is_dir()` only for
directories. -/

abbrev PyPath := List String

structure FS where
  files : List PyPath
  dirs : List PyPath
deriving DecidableEq

def FS.fileExists (fs : FS) (p : PyPath) : Bool := fs.files.contains p

def FS.isDir (fs : FS) (p : PyPath) : Bool := fs.dirs.contains p

def FS.pathExists (fs : FS) (p : PyPath) : Bool := fs.fileExists p || fs.isDir p

/-- `IMAGE_TYPE_MAPPING` (`manga.py` 45-50). -/
def imageTypeMapping : String → Option String
  | "j" => some "jpg"
  | "p" => some "png"
  | "w" => some "webp"
  | "g" => some "gif"
  | _ => none

/-- `SUPPORTED_IMAGE_TYPES` (`manga.py` 51-56). -/
def supportedImageTypes : List String := ["jpg", "png", "webp", "gif"]

/-! ### `difflib.SequenceMatcher` (CPython) as called by `fuzzy_contains`

`fuzzy_contains` (`manga.py` 640-660) builds
`SequenceMatcher(lambda x: x in ("-", "_"), gallery_dir.lower(), dir_name.lower())`
and compares `round(sm.ratio(), 2)` with the threshold.  The first argument is
difflib's *junk* predicate (applied to elements of the second sequence `b`):
junk characters are excluded from the matching table and only re-attach to a
match when identical junk is adjacent on both sides.  The embedding follows
CPython's `find_longest_match` / `get_matching_blocks` / `ratio`; `autojunk`
only applies to sequences of at least 200 elements and is omitted. -/

/-- The junk predicate `lambda x: x in ("-", "_")` of `fuzzy_contains`. -/
def sepJunk (c : Char) : Bool := c == '-' || c == '_'

/-- `b2j.get(c, nothing)` after `__chain_b`: the ascending indices of `c` in
`b`, empty when `c` is junk. -/
def b2jGet (isjunk : Char → Bool) (b : List Char) (c : Char) : List Nat :=
  if isjunk c then []
  else (List.range b.length).filter (fun j => b.get? j == some c)

structure FlmBest where
  besti : Nat
  bestj : Nat
  bestsize : Nat
deriving DecidableEq

/-- One iteration of the outer `for i in range(alo, ahi)` loop of
`find_longest_match`: threading `j2len` (the lengths of junk-free matches
ending at the previous `i`) and the current best block.  The `continue` for
`j < blo` and the `break` for `j >= bhi` both amount to restricting to
`blo <= j < bhi`, since the index list is ascending. -/
def flmOuterStep (a : List Char) (b2j : Char → List Nat) (blo bhi : Nat)
    (st : (Nat → Nat) × FlmBest) (i : Nat) : (Nat → Nat) × FlmBest :=
  let j2len := st.1
  let js := match a.get? i with
    | some c => b2j c
    | none => []
  let init : (Nat → Nat) × FlmBest := (fun _ => 0, st.2)
  js.foldl (fun acc j =>
    if blo ≤ j && j < bhi then
      let k := (if j == 0 then 0 else j2len (j - 1)) + 1
      let newf : Nat → Nat := fun x => if x == j then k else acc.1 x
      let best :=
        if acc.2.bestsize < k then
          { besti := i + 1 - k, bestj := j + 1 - k, bestsize := k }
        else acc.2
      (newf, best)
    else acc) init

/-- The junk-free phase of `find_longest_match`. -/
def flmLoop (a : List Char) (b2j : Char → List Nat) (alo ahi blo bhi : Nat) : FlmBest :=
  ((List.range' alo (ahi - alo)).foldl (flmOuterStep a b2j blo bhi)
    (fun _ => 0, { besti := alo, bestj := blo, bestsize := 0 })).2

/-- `a[i] == b[j]` with the junk-phase guard on `b[j]`
(`want` is `not isbjunk` for the interesting phase, `isbjunk` for the junk
phase). -/
def charsMatchAt (a b : List Char) (want : Char → Bool) (i j : Nat) : Bool :=
  match a.get? i, b.get? j with
  | some x, some y => want y && x == y
  | _, _ => false

/-- A `while besti > alo and bestj > blo and ...` extension loop of
`find_longest_match`, extending the block one element to the left per step
(structural recursion on `besti`, which the loop decrements; at `besti = 0`
the guard `besti > alo` is false and the loop exits). -/
def extendBack (a b : List Char) (want : Char → Bool) (alo blo : Nat) :
    Nat → Nat → Nat → FlmBest
  | 0, bestj, bestsize => { besti := 0, bestj := bestj, bestsize := bestsize }
  | besti + 1, bestj, bestsize =>
    if alo < besti + 1 && blo < bestj
        && charsMatchAt a b want besti (bestj - 1) then
      extendBack a b want alo blo besti (bestj - 1) (bestsize + 1)
    else { besti := besti + 1, bestj := bestj, bestsize := bestsize }

/-- A `while besti+bestsize < ahi and ...` extension loop of
`find_longest_match`, extending the block one element to the right per step.
`fuel` is a structural bound on the iteration count: every iteration requires
`besti + bestsize < ahi` and increments `bestsize`, so at most `ahi`
iterations ever run and the fuel `ahi` passed by `extendFwd` is never
exhausted. -/
def extendFwdAux (a b : List Char) (want : Char → Bool) (ahi bhi besti bestj : Nat) :
    Nat → Nat → Nat
  | 0, bestsize => bestsize
  | fuel + 1, bestsize =>
    if besti + bestsize < ahi && bestj + bestsize < bhi
        && charsMatchAt a b want (besti + bestsize) (bestj + bestsize) then
      extendFwdAux a b want ahi bhi besti bestj fuel (bestsize + 1)
    else bestsize

def extendFwd (a b : List Char) (want : Char → Bool) (ahi bhi besti bestj : Nat)
    (bestsize : Nat) : Nat :=
  extendFwdAux a b want ahi bhi besti bestj ahi bestsize

/-- `difflib.SequenceMatcher.find_longest_match(alo, ahi, blo, bhi)`: the
longest junk-free matching block, extended first by matching non-junk and then
by matching junk on both sides. -/
def findLongestMatch (isjunk : Char → Bool) (a b : List Char)
    (alo ahi blo bhi : Nat) : FlmBest :=
  let base := flmLoop a (b2jGet isjunk b) alo ahi blo bhi
  let s1 := extendBack a b (fun c => !isjunk c) alo blo base.besti base.bestj base.bestsize
  let n1 := extendFwd a b (fun c => !isjunk c) ahi bhi s1.besti s1.bestj s1.bestsize
  let s2 := extendBack a b isjunk alo blo s1.besti s1.bestj n1
  let n2 := extendFwd a b isjunk ahi bhi s2.besti s2.bestj s2.bestsize
  { besti := s2.besti, bestj := s2.bestj, bestsize := n2 }

/-- Sum of the sizes of `get_matching_blocks()`, by the recursive splitting
around the longest match (the queue in CPython visits the same sub-ranges;
only the sum matters for `ratio`).  `fuel` bounds the recursion depth; every
recursive call strictly shrinks `(ahi - alo) + (bhi - blo)`, so the top-level
fuel `len a + len b + 1` used by `matchesTotal` is never exhausted. -/
def matchesTotalAux (isjunk : Char → Bool) (a b : List Char) :
    Nat → Nat → Nat → Nat → Nat → Nat
  | 0, _, _, _, _ => 0
  | fuel + 1, alo, ahi, blo, bhi =>
    let m := findLongestMatch isjunk a b alo ahi blo bhi
    if m.bestsize == 0 then 0
    else
      m.bestsize
        + matchesTotalAux isjunk a b fuel alo m.besti blo m.bestj
        + matchesTotalAux isjunk a b fuel (m.besti + m.bestsize) ahi
            (m.bestj + m.bestsize) bhi

def matchesTotal (isjunk : Char → Bool) (a b : List Char) : Nat :=
  matchesTotalAux isjunk a b (a.length + b.length + 1) 0 a.length 0 b.length

/-- `SequenceMatcher.ratio()` with `_calculate_ratio`:
`2.0 * matches / (len(a) + len(b))`, and `1.0` when both are empty.  Exact
rational arithmetic stands in for the IEEE double of the source. -/
def seqRatio (isjunk : Char → Bool) (a b : String) : ℚ :=
  let la := a.toList.length
  let lb := b.toList.length
  if la + lb == 0 then 1
  else mkRat (2 * (matchesTotal isjunk a.toList b.toList) : Nat) (la + lb)

/-- Python `round(x, 2)` on the exact rational value: round half to even at
two decimal digits.  (The source rounds an IEEE double; on the values compared
in this development the scaled value is never a half-integer, where the two
could differ.) -/
def pyRound2 (q : ℚ) : ℚ :=
  let n : ℤ := q.num * 100
  let d : ℤ := (q.den : ℤ)
  let f : ℤ := Int.fdiv n d
  let rem : ℤ := n - f * d
  let r : ℤ :=
    if 2 * rem < d then f
    else if d < 2 * rem then f + 1
    else if f % 2 == 0 then f else f + 1
  mkRat r 100

/-- Python `str.lower()` (the titles and directory names involved are ASCII;
`Char.toLower` agrees with `str.lower` there). -/
def strLower (s : String) : String := String.mk (s.toList.map Char.toLower)

/-- The rounded similarity score `round(SequenceMatcher(junk, a.lower(),
b.lower()).ratio(), 2)` computed by `fuzzy_contains` for a known directory
name `a` against a queried name `b`. -/
def fuzzyScore (galleryDir dirName : String) : ℚ :=
  pyRound2 (seqRatio sepJunk (strLower galleryDir) (strLower dirName))

/-! ### `_GalleryScanner` lookups (`manga.py` 437-750) -/

/-- The scanner cell after its scans: the library root path and
`_gallery_dirs : language → title-directory → chapter files`.  The chapter
file lists are abstracted to the numeric archive ids — the lookups under
verification use only the lists and their emptiness. -/
structure ScannerState where
  path : PyPath
  galleryDirs : List (String × List (String × List Nat))
deriving DecidableEq

/-- `dict.get(variant)` truthiness in `contains`: a present but empty list is
falsy and rejected. -/
def lookupNonempty (dirs : List (String × List Nat)) (name : String) : Option (List Nat) :=
  match dirs.lookup name with
  | some files => if files.isEmpty then none else some files
  | none => none

/-- `_GalleryScanner.contains` (`manga.py` 624-638): try the exact name, then
its lowercase form, against the known title directories of `lang`; empty
entries are falsy and never returned. -/
def scannerContains (sc : ScannerState) (lang dirName : String) :
    Option (PyPath × List Nat) :=
  if sc.galleryDirs.isEmpty then none
  else
    match sc.galleryDirs.lookup lang with
    | none => none
    | some dirs =>
      match lookupNonempty dirs dirName with
      | some files => some (sc.path ++ [lang, dirName], files)
      | none =>
        match lookupNonempty dirs (strLower dirName) with
        | some files => some (sc.path ++ [lang, strLower dirName], files)
        | none => none

/-- `_GalleryScanner.fuzzy_contains` (`manga.py` 640-660): score every known
title directory of `lang` against `dirName`, keep those at or above the
threshold, and sort them by score, descending.  CPython `sorted` is a stable
sort; `List.insertionSort` is also stable, and a stable sort for a fixed total
preorder is unique, so the results agree. -/
def fuzzyContains (sc : ScannerState) (lang dirName : String) (matchThreshold : ℚ) :
    List (ℚ × PyPath × List Nat) :=
  let dirs := (sc.galleryDirs.lookup lang).getD []
  let matched := dirs.filterMap (fun gd =>
    if matchThreshold ≤ fuzzyScore gd.1 dirName then
      some (fuzzyScore gd.1 dirName, (sc.path ++ [lang, gd.1], gd.2))
    else none)
  matched.insertionSort (fun x y => y.1 ≤ x.1)

/-! ### File-status classification (`manga.py` 875-1017) -/

/-- `remove_special_characters` (`manga.py` 769-774): strip
`<>:"/\|?*` and control characters, keep word characters, whitespace and the
CJK ranges of the source pattern, then strip trailing spaces and dots.
(`\w` is modelled on its ASCII fragment — letters, digits, underscore — which
covers every string this development evaluates it on.) -/
def removeSpecialCharacters (s : String) : String :=
  let step1 := s.toList.filter (fun c =>
    !("<>:\"/\\|?*".toList.contains c) && !(c.toNat ≤ 0x1F))
  let keep := fun (c : Char) =>
    c.isAlphanum || c == '_' || c.isWhitespace
      || (0x4e00 ≤ c.toNat && c.toNat ≤ 0x9fff)
      || (0x3040 ≤ c.toNat && c.toNat ≤ 0x30ff)
  let step2 := step1.filter keep
  String.mk (step2.reverse.dropWhile (fun c => c == ' ' || c == '.')).reverse

/-- The `for ratio, gallery_dir in matched:` loop of `_check_file_status`
(`manga.py` 899-903): the first match with a non-empty file list decides —
`AVAILABLE` at score `>= 0.9`, else `MAYBE_AVALIABLE`. -/
def classifyMatches : List (ℚ × PyPath × List Nat) → FileStatus
  | [] => FileStatus.NOT_FOUND
  | (r, _, files) :: rest =>
    if files.isEmpty then classifyMatches rest
    else if mkRat 9 10 ≤ r then FileStatus.AVAILABLE
    else FileStatus.MAYBE_AVALIABLE

/-- `_check_file_status` (`manga.py` 875-907): `NOT_FOUND` when the resolved
title directory does not exist; `CONVERTED` when `<id>.cbz` exists; when the
raw page directory `<id>/` does not exist, a fuzzy title lookup at threshold
`0.78` (given a title and language) classifies `AVAILABLE` /
`MAYBE_AVALIABLE`, else `NOT_FOUND`; otherwise `MISSING`. -/
def checkFileStatusCore (sc : ScannerState) (fs : FS) (galleryId : Nat)
    (galleryPath : PyPath) (galleryTitle : Option String)
    (galleryLanguage : Option String) : FileStatus :=
  if !(fs.pathExists galleryPath) then FileStatus.NOT_FOUND
  else if fs.pathExists (galleryPath ++ [toString galleryId ++ ".cbz"]) then
    FileStatus.CONVERTED
  else if !(fs.pathExists (galleryPath ++ [toString galleryId])) then
    match galleryTitle, galleryLanguage with
    | some title, some lang =>
      let cleanTitle := strLower (removeSpecialCharacters title)
      classifyMatches (fuzzyContains sc lang cleanTitle (mkRat 78 100))
    | _, _ => FileStatus.NOT_FOUND
  else FileStatus.MISSING

/-- `_check_other_languages` (`manga.py` 999-1017): an exact `contains` hit for
the cleaned or lowercased main title in one of the other two languages. -/
def checkOtherLanguages (sc : ScannerState) (mainTitle currentLanguage : String) : Bool :=
  let cleanTitle := strLower (removeSpecialCharacters mainTitle)
  let mainLower := strLower mainTitle
  ((["english", "japanese", "chinese"].filter (fun l => l ≠ currentLanguage)).any
    (fun lang =>
      (scannerContains sc lang cleanTitle).isSome
        || (scannerContains sc lang mainLower).isSome))

/-- The expected per-page filename list of `check_file_status_gallery`
(`manga.py` 976-979): `gallery_path / f"{img_idx}.{ext}"` for
`img_idx, image in enumerate(pages, start=1)`, with
`IMAGE_TYPE_MAPPING.get(image["t"], "jpg")`. -/
def expectedFileList (galleryPath : PyPath) (pages : List String) : List PyPath :=
  pages.enum.map (fun ie =>
    galleryPath ++ [toString (ie.1 + 1) ++ "." ++ ((imageTypeMapping ie.2).getD "jpg")])

/-- `check_file_status_gallery` (`manga.py` 962-996).  The source first
resolves `gallery_path` through `make_gallery_path`; the resolved path is a
parameter here.  On a `MISSING` core result with an existing directory, the
source tests the expected per-page files with `if any(...): return MISSING
elif all(...): return COMPLETED` and otherwise falls through to the core
result; on a `NOT_FOUND` core result it checks the other two languages
(`info["title"]` and `info["language"]` are non-empty containers, so their
truthiness tests pass). -/
def checkFileStatusGallery (sc : ScannerState) (fs : FS) (galleryId : Nat)
    (galleryPath : PyPath) (mainTitle language : String)
    (pages : List String) : FileStatus :=
  let result := checkFileStatusCore sc fs galleryId galleryPath
    (some mainTitle) (some language)
  if result == FileStatus.MISSING && fs.pathExists galleryPath
      && fs.isDir galleryPath then
    let expectedFiles := expectedFileList galleryPath pages
    if expectedFiles.any (fun f => fs.pathExists f) then FileStatus.MISSING
    else if expectedFiles.all (fun f => fs.pathExists f) then FileStatus.COMPLETED
    else result
  else if result == FileStatus.NOT_FOUND
      && checkOtherLanguages sc mainTitle language then
    FileStatus.IN_DIFF_LANG
  else result

/-! ### Packaging (`DownloadPool._sync_save_cbz`, `downloader.py` 255-295) -/

/-- `p` is a direct child of directory `dir`. -/
def isDirectChild (dir p : PyPath) : Bool :=
  p.length == dir.length + 1 && p.take dir.length == dir

/-- `_sync_save_cbz` at the filesystem level: return unchanged when the
gallery path does not exist or when `<id>.cbz` already exists; otherwise the
archive file is created (from the supported-extension files of the raw
directory plus the generated `ComicInfo.xml` entry) and, when `remove_images`,
every file directly inside the raw directory is unlinked and the directory
removed. -/
def syncSaveCbz (fs : FS) (galleryId : Nat) (galleryPath : PyPath)
    (removeImages : Bool) : FS :=
  if !(fs.pathExists galleryPath) then fs
  else
    let filePath := galleryPath ++ [toString galleryId ++ ".cbz"]
    if fs.pathExists filePath then fs
    else
      let imgDir := galleryPath ++ [toString galleryId]
      let fs1 : FS := { fs with files := filePath :: fs.files }
      if removeImages then
        { files := fs1.files.filter (fun p => !(isDirectChild imgDir p)),
          dirs := fs1.dirs.filter (fun p => !(p == imgDir)) }
      else fs1

/-! ### Archive page extraction (`GalleryCbzFile`, `manga.py` 204-423) -/

/-- An opened archive: its entry list, each entry name with its bytes. -/
abbrev ZipEntries := List (String × List Nat)

/-- `pathlib.PurePath.stem` of an entry name: the last `/`-component without
its suffix, where the suffix is the part from the last dot when that dot is
neither the first nor the last character of the component. -/
def pyStem (name : String) : String :=
  let base := ((name.splitOn "/").getLastD "").toList
  let iOpt := (List.range base.length).filter
    (fun i => base.get? i == some '.') |>.getLast?
  match iOpt with
  | some i => if 0 < i && i < base.length - 1 then String.mk (base.take i) else String.mk base
  | none => String.mk base

/-- The page number of a `CbzPage` (`manga.py` 75-80):
`int(p.stem) if p.stem.isdigit() else 0`. -/
def cbzPageNum (name : String) : Nat :=
  let s := pyStem name
  if s.length ≠ 0 && s.toList.all Char.isDigit then (s.toNat?).getD 0 else 0

/-- One extracted page: the parsed page number and the entry it came from. -/
structure CbzPage where
  page : Nat
  name : String
  data : List Nat
deriving DecidableEq

/-- The distinguished error of Python `list.remove(x)` when `x` is absent. -/
def valueErrorRemove : String := "ValueError: list.remove(x): x not in list"

/-- `GalleryCbzFile._extract_pages` (`manga.py` 379-395):
`namelist.remove("ComicInfo.xml")` raises `ValueError` when the metadata entry
is absent; otherwise the remaining entries with a supported image suffix
become pages, sorted ascending by page number (`sorted` is stable; see
`fuzzyContains` on `insertionSort`). -/
def extractPages (entries : ZipEntries) : Except String (List CbzPage) :=
  let namelist := entries.map (fun e => e.1)
  if namelist.contains "ComicInfo.xml" then
    let names := namelist.erase "ComicInfo.xml"
    let pages := (names.filter (fun n =>
        supportedImageTypes.any (fun ext => n.endsWith ext))).map
      (fun n => { page := cbzPageNum n, name := n,
                  data := ((entries.lookup n).getD []) })
    Except.ok (pages.insertionSort (fun p q => p.page ≤ q.page))
  else Except.error valueErrorRemove

/-- `GalleryCbzFile.get_pages` on a fresh instance (no cached page list):
delegates to `_extract_pages`. -/
def getPages (entries : ZipEntries) : Except String (List CbzPage) :=
  extractPages entries

/-- `GalleryCbzFile.get_page_count`: `len(await self.get_pages())`. -/
def getPageCount (entries : ZipEntries) : Except String Nat :=
  (getPages entries).map (fun l => l.length)

/-- `GalleryCbzFile.read_page` (`manga.py` 257-261): 1-indexed, `ValueError`
outside `[1, len(pages)]`. -/
def readPage (entries : ZipEntries) (page : Nat) : Except String CbzPage :=
  match getPages entries with
  | Except.error e => Except.error e
  | Except.ok pages =>
    if 1 ≤ page && page ≤ pages.length then
      Except.ok (pages.getD (page - 1) { page := 0, name := "", data := [] })
    else Except.error "ValueError: page out of range"

/-- A one-image gallery mid-download: the concrete progress record used to
exercise the final-image paths. -/
def downloadingOneImage : DownloadProgress :=
  { galleryId := 7, totalImages := 1, galleryTitle := "g",
    downloadedImages := 0, failedImages := 0, status := DownloadStatus.DOWNLOADING }

/-- A pool tracking gallery 3 in state `DOWNLOADING`. -/
def poolWithDownloading : PoolState :=
  { progress := [(3, startProgress 3 4 "t")], tasks := [3] }

/-- A pool tracking gallery 3 in state `PENDING`. -/
def poolWithPending : PoolState :=
  { progress := [(3, pendingProgress { id := 3, mainTitle := "t", language := "english", pages := ["j"] })], tasks := [3] }

/-- A scanner that has recorded no title directories. -/
def emptyScanner : ScannerState := { path := [], galleryDirs := [] }

/-- A library where gallery 42 of the one-page title `foo` (resolved to
`english/foo`) has its raw page directory `english/foo/42/` on disk, no
`42.cbz` archive, and the full expected per-page file list present —
`english/foo/1.jpg` is the single file `check_file_status_gallery` puts on its
expected list for a one-page gallery of image type `j`. -/
def fsFullPageSet : FS :=
  { files := [["english", "foo", "1.jpg"]],
    dirs := [["english", "foo"], ["english", "foo", "42"]] }

/-! ## Helper lemmas on the progress callbacks -/

theorem onError_failed (p : DownloadProgress) :
    (onDownloadImageError p).failedImages = p.failedImages + 1 := rfl

theorem onError_downloaded (p : DownloadProgress) :
    (onDownloadImageError p).downloadedImages = p.downloadedImages := rfl

theorem onError_status (p : DownloadProgress) :
    (onDownloadImageError p).status = p.status := rfl

theorem onError_total (p : DownloadProgress) :
    (onDownloadImageError p).totalImages = p.totalImages := rfl

theorem onComplete_downloaded (p : DownloadProgress) :
    (onDownloadImageComplete p).downloadedImages = p.downloadedImages + 1 := by
  unfold onDownloadImageComplete
  dsimp only
  split
  · split <;> rfl
  · rfl

theorem onComplete_failed (p : DownloadProgress) :
    (onDownloadImageComplete p).failedImages = p.failedImages := by
  unfold onDownloadImageComplete
  dsimp only
  split
  · split <;> rfl
  · rfl

theorem onComplete_total (p : DownloadProgress) :
    (onDownloadImageComplete p).totalImages = p.totalImages := by
  unfold onDownloadImageComplete
  dsimp only
  split
  · split <;> rfl
  · rfl

theorem onComplete_status_below (p : DownloadProgress)
    (h : p.downloadedImages + 1 + p.failedImages < p.totalImages) :
    (onDownloadImageComplete p).status = p.status := by
  unfold onDownloadImageComplete
  dsimp only
  rw [if_neg]
  omega

theorem onComplete_status_reached (p : DownloadProgress)
    (h : p.totalImages ≤ p.downloadedImages + 1 + p.failedImages) :
    (onDownloadImageComplete p).status =
      if p.failedImages = 0 then DownloadStatus.COMPLETED else DownloadStatus.MISSING := by
  unfold onDownloadImageComplete
  dsimp only
  rw [if_pos]
  · split <;> simp_all
  · omega

theorem stepEvent_total (p : DownloadProgress) (e : ImgEvent) :
    (stepEvent p e).totalImages = p.totalImages := by
  cases e
  · exact onComplete_total p
  · exact onError_total p

theorem stepEvent_counters (p : DownloadProgress) (e : ImgEvent) :
    (stepEvent p e).downloadedImages + (stepEvent p e).failedImages
      = p.downloadedImages + p.failedImages + 1 := by
  cases e
  · rw [stepEvent, onComplete_downloaded, onComplete_failed]
    omega
  · rw [stepEvent, onError_downloaded, onError_failed]
    omega

theorem runEvents_counters (evs : List ImgEvent) : ∀ p : DownloadProgress,
    (runEvents p evs).downloadedImages + (runEvents p evs).failedImages
      = p.downloadedImages + p.failedImages + evs.length := by
  induction evs with
  | nil => intro p; simp [runEvents]
  | cons e rest ih =>
    intro p
    have h1 : runEvents p (e :: rest) = runEvents (stepEvent p e) rest := rfl
    rw [h1, ih (stepEvent p e), stepEvent_counters]
    simp
    omega

theorem runEvents_total (evs : List ImgEvent) : ∀ p : DownloadProgress,
    (runEvents p evs).totalImages = p.totalImages := by
  induction evs with
  | nil => intro p; rfl
  | cons e rest ih =>
    intro p
    have h1 : runEvents p (e :: rest) = runEvents (stepEvent p e) rest := rfl
    rw [h1, ih (stepEvent p e), stepEvent_total]

theorem runEvents_status_stay (evs : List ImgEvent) : ∀ p : DownloadProgress,
    p.status = DownloadStatus.DOWNLOADING →
    p.downloadedImages + p.failedImages + evs.length < p.totalImages →
    (runEvents p evs).status = DownloadStatus.DOWNLOADING := by
  induction evs with
  | nil => intro p hs _; exact hs
  | cons e rest ih =>
    intro p hs hlt
    have h1 : runEvents p (e :: rest) = runEvents (stepEvent p e) rest := rfl
    rw [h1]
    apply ih (stepEvent p e)
    · cases e
      · rw [stepEvent, onComplete_status_below]
        · exact hs
        · simp at hlt
          omega
      · rw [stepEvent, onError_status]; exact hs
    · rw [stepEvent_total, stepEvent_counters]
      simp at hlt ⊢
      omega

/-- A duplicate-free list of naturals whose members all equal `m` has at most
one element. -/
theorem nodup_all_eq_length_le_one (xs : List Nat) (m : Nat)
    (h1 : xs.Nodup) (h2 : ∀ x ∈ xs, x = m) : xs.length ≤ 1 := by
  match xs with
  | [] => simp
  | [a] => simp
  | a :: b :: t =>
    exfalso
    have ha : a = m := h2 a (by simp)
    have hb : b = m := h2 b (by simp)
    have := List.nodup_cons.mp h1
    exact this.1 (by simp [ha, hb])

/-! ## Claims C2 and C3 -/

/-- C2, counterexample: with one image in total and the progress fresh in state
`DOWNLOADING`, a failure of that (final) image brings
`downloaded + failed` to `total`, yet the status remains `DOWNLOADING`: the
error callback increments the counter but never assigns the terminal
`MISSING`/`COMPLETED` status the claim requires on this path. -/
theorem c2_final_failure_no_terminal_status :
    ((onDownloadImageError downloadingOneImage).downloadedImages
      + (onDownloadImageError downloadingOneImage).failedImages
      = downloadingOneImage.totalImages)
    ∧ (onDownloadImageError downloadingOneImage).status ≠ DownloadStatus.MISSING
    ∧ (onDownloadImageError downloadingOneImage).status ≠ DownloadStatus.COMPLETED := by
  refine ⟨rfl, ?_, ?_⟩ <;> decide

/-- C2 (amended): on every per-image success and failure the respective
counter is incremented under the progress lock, but the terminal check-and-set
runs only in the success callback: a success that brings
`downloaded + failed` to at least `total` assigns `COMPLETED` when
`failed == 0` and `MISSING` otherwise, atomically with its increment, while a
failure never assigns a status — so no terminal status is assigned when the
final image fails. -/
theorem c2_progress_update_amended (p : DownloadProgress) :
    (onDownloadImageError p).failedImages = p.failedImages + 1
    ∧ (onDownloadImageError p).downloadedImages = p.downloadedImages
    ∧ (onDownloadImageError p).status = p.status
    ∧ (onDownloadImageComplete p).downloadedImages = p.downloadedImages + 1
    ∧ (onDownloadImageComplete p).failedImages = p.failedImages
    ∧ (onDownloadImageComplete p).status =
        (if p.totalImages ≤ p.downloadedImages + 1 + p.failedImages then
          (if p.failedImages = 0 then DownloadStatus.COMPLETED else DownloadStatus.MISSING)
        else p.status) := by
  refine ⟨onError_failed p, onError_downloaded p, onError_status p,
    onComplete_downloaded p, onComplete_failed p, ?_⟩
  by_cases hc : p.totalImages ≤ p.downloadedImages + 1 + p.failedImages
  · rw [onComplete_status_reached p hc, if_pos hc]
  · rw [onComplete_status_below p (by omega), if_neg hc]

/-- C3, counterexample: a complete run (one event per image) of a one-image
gallery whose only image fails never assigns a terminal status — zero terminal
assignments, not exactly one, although `downloaded + failed` reaches
`total`. -/
theorem c3_all_failures_no_terminal :
    terminalAssignCount (startProgress 9 1 "g") [ImgEvent.failure] = 0
    ∧ (runEvents (startProgress 9 1 "g") [ImgEvent.failure]).downloadedImages
        + (runEvents (startProgress 9 1 "g") [ImgEvent.failure]).failedImages
        = (startProgress 9 1 "g").totalImages
    ∧ isTerminal (runEvents (startProgress 9 1 "g") [ImgEvent.failure]).status = false := by
  refine ⟨?_, ?_, ?_⟩ <;> decide

/-- C3 (amended): along every linearization of at most `total` per-image
callbacks (each page image contributes at most one increment, either to
downloaded or to failed), `downloaded + failed ≤ total` holds at every point,
and a terminal status is assigned at most once — exactly once only when the
event reaching the total is a success. -/
theorem c3_progress_invariant (n gid : Nat) (title : String) (evs : List ImgEvent)
    (h : evs.length ≤ n) :
    (∀ k, (runEvents (startProgress gid n title) (evs.take k)).downloadedImages
        + (runEvents (startProgress gid n title) (evs.take k)).failedImages ≤ n)
    ∧ terminalAssignCount (startProgress gid n title) evs ≤ 1 := by
  constructor
  · intro k
    rw [runEvents_counters]
    have hlen : (evs.take k).length ≤ evs.length := by
      rw [List.length_take]; omega
    simp [startProgress]
    omega
  · rw [terminalAssignCount, List.countP_eq_length_filter]
    apply nodup_all_eq_length_le_one _ (n - 1)
    · exact (List.nodup_range _).filter _
    · intro x hx
      have hmem := List.mem_filter.mp hx
      have hxr : x < evs.length := List.mem_range.mp hmem.1
      have hterm : isTerminal
          (runEvents (startProgress gid n title) (evs.take (x + 1))).status = true := by
        have h2 := hmem.2
        simp only [Bool.and_eq_true] at h2
        exact h2.2
      by_cases hxn : n ≤ x + 1
      · omega
      · exfalso
        have hstay : (runEvents (startProgress gid n title) (evs.take (x + 1))).status
            = DownloadStatus.DOWNLOADING := by
          apply runEvents_status_stay
          · rfl
          · have : (evs.take (x + 1)).length ≤ x + 1 := by
              rw [List.length_take]; omega
            simp [startProgress]
            omega
        rw [hstay] at hterm
        exact absurd hterm (by decide)

/-- C3, witness: the amended invariant instantiated on a two-image gallery
with one success then one failure. -/
theorem c3_progress_invariant_witness :
    ((runEvents (startProgress 5 2 "t") ([ImgEvent.success, ImgEvent.failure].take 1)).downloadedImages
        + (runEvents (startProgress 5 2 "t") ([ImgEvent.success, ImgEvent.failure].take 1)).failedImages ≤ 2)
    ∧ terminalAssignCount (startProgress 5 2 "t") [ImgEvent.success, ImgEvent.failure] ≤ 1 :=
  ⟨(c3_progress_invariant 2 5 "t" [ImgEvent.success, ImgEvent.failure] (by decide)).1 1,
   (c3_progress_invariant 2 5 "t" [ImgEvent.success, ImgEvent.failure] (by decide)).2⟩

/-! ## Claims C7 and C8: the per-image fetch -/

/-- Characterization of the mirror loop over any ascending index range:
no `200` answer means every index is tried and no file written; a first `200`
answer at index `k` means exactly the indices up to and including `k` are
tried and the body of `k` is written. -/
theorem tryMirrors_range (resp : Nat → AttemptResult) :
    ∀ n s, ((List.range' s n).find? (fun j => isOk200 (resp j)) = none →
        tryMirrors resp (List.range' s n) = (List.range' s n, none))
    ∧ (∀ k, (List.range' s n).find? (fun j => isOk200 (resp j)) = some k →
        tryMirrors resp (List.range' s n)
          = (List.range' s (k + 1 - s), some (k, bodyOf (resp k)))) := by
  intro n
  induction n with
  | zero =>
    intro s
    exact ⟨fun _ => rfl, fun k hk => by simp at hk⟩
  | succ m ih =>
    intro s
    rw [List.range'_succ]
    by_cases hok : isOk200 (resp s) = true
    · have hfind : List.find? (fun j => isOk200 (resp j)) (s :: List.range' (s + 1) m)
          = some s :=
        List.find?_cons_of_pos _ (show (fun j => isOk200 (resp j)) s = true from hok)
      constructor
      · intro hnone
        rw [hfind] at hnone
        exact absurd hnone (by simp)
      · intro k hk
        rw [hfind] at hk
        have hks : k = s := (Option.some.inj hk).symm
        subst hks
        have h1 : k + 1 - k = 1 := by omega
        rw [h1, List.range'_one, tryMirrors, if_pos hok]
    · have hfind : List.find? (fun j => isOk200 (resp j)) (s :: List.range' (s + 1) m)
          = List.find? (fun j => isOk200 (resp j)) (List.range' (s + 1) m) :=
        List.find?_cons_of_neg _ (show ¬(fun j => isOk200 (resp j)) s = true from hok)
      constructor
      · intro hnone
        rw [hfind] at hnone
        have hrec := (ih (s + 1)).1 hnone
        rw [tryMirrors, if_neg hok, hrec]
      · intro k hk
        rw [hfind] at hk
        have hk1 : s + 1 ≤ k := by
          have hm := List.mem_of_find?_eq_some hk
          exact (List.mem_range'_1.mp hm).1
        have hrec := (ih (s + 1)).2 k hk
        rw [tryMirrors, if_neg hok, hrec]
        have h2 : k + 1 - s = (k + 1 - (s + 1)) + 1 := by omega
        rw [h2, List.range'_succ]

/-- C7: for a page whose destination file does not exist, the mirror indices
1..9 are tried in ascending order; the first `200` response streams its body
to the destination and records one success; a non-200 or a transport error on
an attempt moves to the next mirror; exhausting all 9 mirrors records exactly
one failed image.  The fetch is a total function into `FetchOutcome` — no
per-image failure propagates past it. -/
theorem c7_mirror_retry (resp : Nat → AttemptResult) :
    (∀ k, firstOkMirror resp = some k →
      downloadImage false resp
        = { tried := List.range' 1 k, written := some (k, bodyOf (resp k)),
            event := ImgEvent.success })
    ∧ (firstOkMirror resp = none →
      downloadImage false resp
        = { tried := List.range' 1 9, written := none, event := ImgEvent.failure }) := by
  constructor
  · intro k hk
    have h := (tryMirrors_range resp 9 1).2 k hk
    have h1 : k + 1 - 1 = k := by omega
    rw [h1] at h
    rw [downloadImage, if_neg (by simp), mirrorIndices, h]
  · intro hnone
    have h := (tryMirrors_range resp 9 1).1 hnone
    rw [downloadImage, if_neg (by simp), mirrorIndices, h]

/-- C7, witness: all mirrors erroring records one failure after trying 1..9;
a first success at mirror 3 stops there with the streamed body. -/
theorem c7_mirror_retry_witness :
    downloadImage false (fun _ => AttemptResult.transportError)
      = { tried := List.range' 1 9, written := none, event := ImgEvent.failure }
    ∧ downloadImage false
        (fun j => if j == 3 then AttemptResult.response 200 [7] else AttemptResult.transportError)
      = { tried := List.range' 1 3, written := some (3, [7]), event := ImgEvent.success } :=
  ⟨(c7_mirror_retry (fun _ => AttemptResult.transportError)).2 (by decide),
   (c7_mirror_retry
      (fun j => if j == 3 then AttemptResult.response 200 [7] else AttemptResult.transportError)).1
      3 (by decide)⟩

/-- C8: a page whose destination file already exists when the per-image fetch
starts is counted as downloaded immediately (`_on_download_image_complete`)
and no mirror is contacted. -/
theorem c8_resume_counts_existing (resp : Nat → AttemptResult) :
    downloadImage true resp
      = { tried := [], written := none, event := ImgEvent.success } := rfl

/-! ## Claim C6: cancellation -/

theorem lookup_map_cancel (gid : Nat) : ∀ l : List (Nat × DownloadProgress),
    (l.map (fun e =>
      if e.1 == gid then (e.1, { e.2 with status := DownloadStatus.CANCELLED }) else e)).lookup gid
      = (l.lookup gid).map (fun p => { p with status := DownloadStatus.CANCELLED }) := by
  intro l
  induction l with
  | nil => rfl
  | cons e t ih =>
    obtain ⟨k, v⟩ := e
    by_cases hk : k = gid
    · subst hk
      have hb : (k == k) = true := by simp
      simp only [List.map_cons, hb, if_pos, List.lookup_cons]
      rfl
    · have hne : ¬((k == gid) = true) := by simp [hk]
      have hne2 : (gid == k) = false := by
        simp only [beq_eq_false_iff_ne, ne_eq]
        exact fun hh => hk hh.symm
      rw [List.map_cons, if_neg hne, List.lookup_cons, List.lookup_cons, hne2]
      exact ih

/-- C6: `cancel(id)` returns `True` exactly when the gallery is tracked with
current status `DOWNLOADING`, in which case the status becomes `CANCELLED`;
for any other current status — `PENDING`, a terminal status, or an untracked
id — it returns `False` and leaves the tracking state unchanged. -/
theorem c6_cancel_semantics (s : PoolState) (gid : Nat) :
    ((poolCancel s gid).1 = true ↔ statusOf s gid = some DownloadStatus.DOWNLOADING)
    ∧ ((poolCancel s gid).1 = false → (poolCancel s gid).2 = s)
    ∧ ((poolCancel s gid).1 = true →
        statusOf (poolCancel s gid).2 gid = some DownloadStatus.CANCELLED) := by
  unfold poolCancel
  cases hl : s.progress.lookup gid with
  | none =>
    refine ⟨?_, fun _ => rfl, ?_⟩
    · simp [statusOf, hl]
    · intro hf
      exact absurd hf (by simp)
  | some p =>
    dsimp only
    by_cases hcs : (p.status == DownloadStatus.DOWNLOADING) = true
    · refine ⟨?_, ?_, ?_⟩
      · rw [if_pos hcs]
        simp [statusOf, hl, beq_iff_eq.mp hcs]
      · intro hf
        rw [if_pos hcs] at hf
        exact absurd hf (by simp)
      · intro _
        rw [if_pos hcs]
        simp only [statusOf]
        rw [lookup_map_cancel gid s.progress, hl]
        rfl
    · have hsne : p.status ≠ DownloadStatus.DOWNLOADING := by
        intro hh
        exact hcs (by simp [hh])
      refine ⟨?_, ?_, ?_⟩
      · rw [if_neg hcs]
        simp [statusOf, hl, hsne]
      · intro _
        rw [if_neg hcs]
      · intro hf
        rw [if_neg hcs] at hf
        exact absurd hf (by simp)

/-- C6, witness: cancelling a tracked `DOWNLOADING` gallery returns `True` and
sets `CANCELLED`; cancelling the same gallery while `PENDING` returns `False`
and changes nothing. -/
theorem c6_cancel_semantics_witness :
    statusOf (poolCancel poolWithDownloading 3).2 3 = some DownloadStatus.CANCELLED
    ∧ (poolCancel poolWithPending 3).1 = false
    ∧ (poolCancel poolWithPending 3).2 = poolWithPending :=
  ⟨(c6_cancel_semantics poolWithDownloading 3).2.2 (by decide),
   by decide,
   (c6_cancel_semantics poolWithPending 3).2.1 (by decide)⟩

/-! ## Claim C9: packaging is a no-op when the archive exists -/

/-- C9: when the destination archive `<id>.cbz` already exists,
`_sync_save_cbz` returns before any write or delete: the filesystem — in
particular the raw page directory and its files — is left unchanged. -/
theorem c9_package_noop_when_archive_exists (fs : FS) (gid : Nat)
    (galleryPath : PyPath) (removeImages : Bool)
    (h : fs.pathExists (galleryPath ++ [toString gid ++ ".cbz"]) = true) :
    syncSaveCbz fs gid galleryPath removeImages = fs := by
  unfold syncSaveCbz
  by_cases hg : fs.pathExists galleryPath = true
  · simp [hg, h]
  · simp [Bool.not_eq_true] at hg
    simp [hg]

/-- C9, witness: a library with `english/t/5.cbz` present and raw pages on
disk is untouched by packaging gallery 5 again. -/
theorem c9_package_noop_witness :
    syncSaveCbz
      { files := [["english", "t", "5.cbz"], ["english", "t", "5", "1.jpg"]],
        dirs := [["english", "t"], ["english", "t", "5"]] }
      5 ["english", "t"] true
    = { files := [["english", "t", "5.cbz"], ["english", "t", "5", "1.jpg"]],
        dirs := [["english", "t"], ["english", "t", "5"]] } :=
  c9_package_noop_when_archive_exists _ 5 ["english", "t"] true (by decide)

/-! ## Claim C10: page extraction requires the metadata entry -/

/-- C10: when the archive's entry list has no `"ComicInfo.xml"`, the
`namelist.remove("ComicInfo.xml")` of `_extract_pages` raises `ValueError`, so
`get_pages`, `get_page_count` and `read_page` all fail on such an archive
instead of merely leaving the metadata entry out of the page list. -/
theorem c10_pages_require_metadata (entries : ZipEntries) (n : Nat)
    (h : (entries.map (fun e => e.1)).contains "ComicInfo.xml" = false) :
    extractPages entries = Except.error valueErrorRemove
    ∧ getPages entries = Except.error valueErrorRemove
    ∧ getPageCount entries = Except.error valueErrorRemove
    ∧ readPage entries n = Except.error valueErrorRemove := by
  have he : extractPages entries = Except.error valueErrorRemove := by
    simp only [extractPages]
    rw [h]
    rfl
  refine ⟨he, he, ?_, ?_⟩
  · unfold getPageCount getPages
    rw [he]
    rfl
  · unfold readPage getPages
    rw [he]

/-- C10, witness: an archive holding a single page image and no metadata entry
fails on all four operations. -/
theorem c10_pages_require_metadata_witness :
    extractPages [("1.jpg", [9])] = Except.error valueErrorRemove
    ∧ readPage [("1.jpg", [9])] 1 = Except.error valueErrorRemove :=
  ⟨(c10_pages_require_metadata [("1.jpg", [9])] 1 (by decide)).1,
   (c10_pages_require_metadata [("1.jpg", [9])] 1 (by decide)).2.2.2⟩

/-! ## Claim C5: idempotent submission -/

theorem countP_zero_lookup_none (a : Nat) : ∀ l : List (Nat × DownloadProgress),
    l.countP (fun e => e.1 == a) = 0 → l.lookup a = none := by
  intro l
  induction l with
  | nil => intro _; rfl
  | cons e t ih =>
    intro h
    obtain ⟨k, v⟩ := e
    simp only [List.countP_cons] at h
    cases hbe : (k == a) with
    | true =>
      rw [hbe] at h
      simp at h
    | false =>
      have ht : t.countP (fun e => e.1 == a) = 0 := by
        rw [hbe] at h
        simpa using h
      have hne2 : (a == k) = false := by
        rw [beq_eq_false_iff_ne] at hbe ⊢
        exact fun hh => hbe hh.symm
      rw [List.lookup_cons, hne2]
      exact ih ht

theorem lookup_append_of_none (a : Nat) (l2 : List (Nat × DownloadProgress)) :
    ∀ l1 : List (Nat × DownloadProgress),
    l1.lookup a = none → (l1 ++ l2).lookup a = l2.lookup a := by
  intro l1
  induction l1 with
  | nil => intro _; rfl
  | cons e t ih =>
    intro h
    obtain ⟨k, v⟩ := e
    cases hk : (a == k) with
    | true =>
      rw [List.lookup_cons, hk] at h
      exact absurd h (by simp)
    | false =>
      rw [List.lookup_cons, hk] at h
      rw [List.cons_append, List.lookup_cons, hk]
      exact ih h

/-- The three early-return branches of `DownloadPool.add`: submission leaves
the tracking state unchanged whenever the gallery is already tracked as
in-flight, whatever the file-status outcome was. -/
theorem addSubmit_noop (s : PoolState) (st : FileStatus) (g : GalleryInfo)
    (h : isDownloading s g.id = true) : addSubmit s st g = s := by
  unfold addSubmit
  by_cases h1 : (st == FileStatus.CONVERTED) = true
  · rw [if_pos h1]
  · rw [if_neg h1]
    by_cases h2 : (st == FileStatus.COMPLETED) = true
    · rw [if_pos h2]
    · rw [if_neg h2, if_pos h]

/-- C5: submission is idempotent for an in-flight gallery.  An id tracked as
`PENDING` or `DOWNLOADING` makes `add` leave the tracking maps unchanged for
every file-status outcome; consequently, submitting a fresh gallery twice
(with a file status that triggers a download) registers exactly one progress
record and one task. -/
theorem c5_submit_idempotent (s : PoolState) (st st2 : FileStatus) (g : GalleryInfo) :
    (isDownloading s g.id = true → addSubmit s st g = s)
    ∧ (s.progress.countP (fun e => e.1 == g.id) = 0 →
       s.tasks.count g.id = 0 →
       st ≠ FileStatus.CONVERTED → st ≠ FileStatus.COMPLETED →
       addSubmit (addSubmit s st g) st2 g = addSubmit s st g
       ∧ (addSubmit (addSubmit s st g) st2 g).progress.countP (fun e => e.1 == g.id) = 1
       ∧ (addSubmit (addSubmit s st g) st2 g).tasks.count g.id = 1) := by
  constructor
  · intro h
    exact addSubmit_noop s st g h
  · intro hp ht h1 h2
    have hb1 : ¬((st == FileStatus.CONVERTED) = true) := by simp [h1]
    have hb2 : ¬((st == FileStatus.COMPLETED) = true) := by simp [h2]
    have hnone : s.progress.lookup g.id = none := countP_zero_lookup_none g.id s.progress hp
    have hnd : isDownloading s g.id = false := by
      unfold isDownloading
      rw [hnone]
    have hfirst : addSubmit s st g
        = { progress := s.progress ++ [(g.id, pendingProgress g)],
            tasks := s.tasks ++ [g.id] } := by
      unfold addSubmit
      rw [if_neg hb1, if_neg hb2, if_neg (by rw [hnd]; simp)]
    have hlook : (s.progress ++ [(g.id, pendingProgress g)]).lookup g.id
        = some (pendingProgress g) := by
      rw [lookup_append_of_none g.id _ s.progress hnone, List.lookup_cons]
      simp
    have hdl : isDownloading (addSubmit s st g) g.id = true := by
      rw [hfirst]
      unfold isDownloading
      dsimp only
      rw [hlook]
      rfl
    have hsecond : addSubmit (addSubmit s st g) st2 g = addSubmit s st g :=
      addSubmit_noop (addSubmit s st g) st2 g hdl
    refine ⟨hsecond, ?_, ?_⟩
    · rw [hsecond, hfirst]
      dsimp only
      rw [List.countP_append, hp]
      simp [List.countP_cons]
    · rw [hsecond, hfirst]
      dsimp only
      rw [List.count_append, ht]
      simp

/-! ## Claim C4: fuzzy matching -/

/-- C4, counterexample: `fuzzy_contains` passes `lambda x: x in ("-", "_")` as
difflib's junk predicate, which is not separator normalization — junk
characters still count toward the ratio's length term but never match.
Comparing the name "foo-bar" against the known directory "foo_bar" therefore
scores `round(ratio, 2) = 0.86` (ratio `6/7`), not the `1.0` the claim
states. -/
theorem c4_junk_is_not_normalization :
    fuzzyScore "foo_bar" "foo-bar" = mkRat 43 50
    ∧ seqRatio sepJunk (strLower "foo_bar") (strLower "foo-bar") = mkRat 6 7
    ∧ fuzzyScore "foo_bar" "foo-bar" ≠ 1 := by
  refine ⟨by decide, by decide, by decide⟩

/-- C4 (amended): `fuzzy_contains` scores each known directory of the language
with difflib's ratio under the junk predicate on `-` and `_` (so
"foo-bar" vs "foo_bar" rounds to 0.86, not 1.0), and returns exactly the
directories whose rounded score is at or above the threshold, as
`(score, directory)` pairs sorted descending by score. -/
theorem c4_fuzzy_contains_spec :
    fuzzyScore "foo_bar" "foo-bar" = mkRat 43 50
    ∧ (∀ (sc : ScannerState) (lang name : String) (t : ℚ),
        (fuzzyContains sc lang name t).Pairwise (fun x y => y.1 ≤ x.1))
    ∧ (∀ (sc : ScannerState) (lang name : String) (t : ℚ) (x : ℚ × PyPath × List Nat),
        x ∈ fuzzyContains sc lang name t ↔
          ∃ gd ∈ (sc.galleryDirs.lookup lang).getD [],
            t ≤ fuzzyScore gd.1 name
            ∧ x = (fuzzyScore gd.1 name, (sc.path ++ [lang, gd.1], gd.2))) := by
  refine ⟨by decide, ?_, ?_⟩
  · intro sc lang name t
    haveI hT : IsTotal (ℚ × PyPath × List Nat) (fun x y => y.1 ≤ x.1) :=
      ⟨fun a b => le_total b.1 a.1⟩
    haveI hR : IsTrans (ℚ × PyPath × List Nat) (fun x y => y.1 ≤ x.1) :=
      ⟨fun _ _ _ hab hbc => le_trans hbc hab⟩
    exact List.sorted_insertionSort _ _
  · intro sc lang name t x
    simp only [fuzzyContains]
    rw [(List.perm_insertionSort _ _).mem_iff, List.mem_filterMap]
    constructor
    · rintro ⟨gd, hgd, hf⟩
      by_cases hc : t ≤ fuzzyScore gd.1 name
      · rw [if_pos hc] at hf
        exact ⟨gd, hgd, hc, (Option.some.inj hf).symm⟩
      · rw [if_neg hc] at hf
        exact absurd hf (by simp)
    · rintro ⟨gd, hgd, hc, hx⟩
      exact ⟨gd, hgd, by rw [if_pos hc, hx]⟩

/-! ## Claim C1: full expected file set vs the status classification -/

/-- C1: the classification with the raw page directory present.  In the
library `fsFullPageSet` the raw directory `english/foo/42/` exists, no
`42.cbz` archive exists, and every file of the expected per-page list exists —
yet `check_file_status_gallery` returns `MISSING`, not the `COMPLETED` the
claim states: its `if any(...): return MISSING` precedes
`elif all(...): return COMPLETED`, so whenever the (non-empty) expected list
is fully present the `any` branch fires first and the `COMPLETED` branch is
unreachable. -/
theorem c1_full_page_set_reports_missing :
    checkFileStatusGallery emptyScanner fsFullPageSet 42 ["english", "foo"]
        "foo" "english" ["j"]
      = FileStatus.MISSING
    ∧ (expectedFileList ["english", "foo"] ["j"]).all
        (fun f => fsFullPageSet.pathExists f) = true
    ∧ fsFullPageSet.pathExists (["english", "foo"] ++ ["42"]) = true
    ∧ fsFullPageSet.pathExists (["english", "foo"] ++ ["42.cbz"]) = false := by
  refine ⟨by decide, by decide, by decide, by decide⟩

/-- C5, witness: submitting gallery 8 twice into an empty pool with file
status `NOT_FOUND` yields exactly one progress record and one task. -/
theorem c5_submit_idempotent_witness :
    addSubmit (addSubmit { progress := [], tasks := [] } FileStatus.NOT_FOUND
        { id := 8, mainTitle := "t", language := "english", pages := ["j", "p"] })
      FileStatus.NOT_FOUND
      { id := 8, mainTitle := "t", language := "english", pages := ["j", "p"] }
    = addSubmit { progress := [], tasks := [] } FileStatus.NOT_FOUND
        { id := 8, mainTitle := "t", language := "english", pages := ["j", "p"] }
    ∧ (addSubmit (addSubmit { progress := [], tasks := [] } FileStatus.NOT_FOUND
        { id := 8, mainTitle := "t", language := "english", pages := ["j", "p"] })
      FileStatus.NOT_FOUND
      { id := 8, mainTitle := "t", language := "english", pages := ["j", "p"] }).progress.countP
        (fun e => e.1 == 8) = 1 :=
  ⟨((c5_submit_idempotent { progress := [], tasks := [] } FileStatus.NOT_FOUND
      FileStatus.NOT_FOUND
      { id := 8, mainTitle := "t", language := "english", pages := ["j", "p"] }).2
      (by decide) (by decide) (by decide) (by decide)).1,
   ((c5_submit_idempotent { progress := [], tasks := [] } FileStatus.NOT_FOUND
      FileStatus.NOT_FOUND
      { id := 8, mainTitle := "t", language := "english", pages := ["j", "p"] }).2
      (by decide) (by decide) (by decide) (by decide)).2.1⟩

end ProxyProof
